import Mathlib

/-!
# Auth controller of the event backend

A shallow embedding of `controllers/auth.js`: the six request handlers
(`register`, `login`, `logout`, `getMe`, `updateUser`, `deleteUser`) and the
`sendTokenResponse` helper.

Modelling conventions.

* A JavaScript value coming from a request body is a `JsVal`; a request body is
  an association list from property names to values, and reading an absent
  property yields `undefined`.
* A JavaScript number is an IEEE double.  The numbers the controller computes with
  (ticket counts, the cookie lifetime in days) are modelled as `JsNum`: a whole
  number, an infinity or NaN, with addition rounded as doubles round
  (`roundToDouble`: 53 significant bits, ties to even, overflow to infinity).
  Fractional numbers are outside the model.
* Clock values are integers in milliseconds.  A `Date` is its time value, valid only
  within 8 640 000 000 000 000 ms of the epoch (`newDate`).
* `process.env` is the record `Env`; `Date.now()` is the argument `now`.
* The three Mongoose collections are explicit state (`Store`).  Collections
  addressed by `_id` (users, events) are finite maps from ids to documents, the
  reservation collection is a list of documents.
* A store call either resolves or rejects.  For `login`, `register` the store is
  an environment of functions returning `Except`; for `updateUser`, `getMe` and
  `deleteUser` a fault plan tells, for the n-th store call issued by the
  handler, whether it rejects and with which message.  A rejected call leaves
  the store as it was.
* `try { ... } catch` is `tryCatch`; a handler without one lets the rejection
  escape (`Handled.uncaught`).
-/

namespace EventBackend

/-! ## Values, documents, responses -/

/-- JavaScript values as they reach the handlers. -/
inductive JsVal where
  | undefined
  | null
  | bool (b : Bool)
  | num (n : Int)
  | nan
  | str (s : String)
  | obj (ref : Nat)
  deriving DecidableEq, Repr

/-- JavaScript truthiness (`!v` is the negation of this). -/
def JsVal.truthy : JsVal → Bool
  | .undefined => false
  | .null => false
  | .bool b => b
  | .num n => n != 0
  | .nan => false
  | .str s => s != ""
  | .obj _ => true

/-- A JavaScript number holding a whole value: a finite integer, an infinity or NaN. -/
inductive JsNum where
  | int (n : Int)
  | inf (negative : Bool)
  | nan
  deriving DecidableEq, Repr

/-- Number of binary digits of `m`, capped at `fuel`. -/
def bitLength : Nat → Nat → Nat
  | 0, _ => 0
  | fuel + 1, m => if m = 0 then 0 else bitLength fuel (m / 2) + 1

/-- The double nearest to the integer `x`: integers of magnitude up to `2 ^ 53` are
exact, larger ones keep 53 significant bits (ties to even), and a magnitude that rounds
to 1025 binary digits or more, that is to `2 ^ 1024` or beyond, is an infinity. -/
def roundToDouble (x : Int) : JsNum :=
  let m := x.natAbs
  if m ≤ 2 ^ 53 then JsNum.int x
  else
    let bits := bitLength 1025 m
    if 1024 < bits then JsNum.inf (decide (x < 0))
    else
      let ulp := 2 ^ (bits - 53)
      let q := m / ulp
      let r := m % ulp
      let q1 := if ulp < 2 * r ∨ (2 * r = ulp ∧ q % 2 = 1) then q + 1 else q
      if 1024 < bitLength 1025 (q1 * ulp) then JsNum.inf (decide (x < 0))
      else JsNum.int (if x < 0 then -((q1 * ulp : Nat) : Int) else ((q1 * ulp : Nat) : Int))

/-- JavaScript `a + b` on numbers. -/
def JsNum.add : JsNum → JsNum → JsNum
  | .int a, .int b => roundToDouble (a + b)
  | .nan, _ => .nan
  | _, .nan => .nan
  | .inf s, .inf t => if s = t then .inf s else .nan
  | .inf s, .int _ => .inf s
  | .int _, .inf t => .inf t

/-- The whole value of a finite number, 0 for an infinity or NaN. -/
def JsNum.toInt : JsNum → Int
  | .int n => n
  | _ => 0

/-- The number is a finite whole number. -/
def JsNum.isInt : JsNum → Bool
  | .int _ => true
  | _ => false

/-- Largest magnitude of a valid `Date` time value, in milliseconds. -/
def maxTime : Int := 8640000000000000

/-- Time value of `new Date(ms)`; `none` is an invalid date. -/
def newDate (ms : Option Int) : Option Int :=
  match ms with
  | some t => if -maxTime ≤ t ∧ t ≤ maxTime then some t else none
  | none => none

/-- A parsed request body: property names with their values. -/
abbrev ReqBody := List (String × JsVal)

/-- Property read `body.key`; an absent property reads as `undefined`. -/
def prop (b : ReqBody) (key : String) : JsVal :=
  match b.lookup key with
  | some v => v
  | none => JsVal.undefined

/-- The part of `process.env` the controller reads; `JWT_COOKIE_EXPIRE` is the number the
environment string converts to when it is multiplied (NaN when the variable is unset or
not numeric). -/
structure Env where
  NODE_ENV : Option String
  JWT_COOKIE_EXPIRE : JsNum
  deriving DecidableEq, Repr

/-- A user document. -/
structure UserDoc where
  _id : Nat
  name : JsVal
  email : JsVal
  tel : JsVal
  role : JsVal
  password : JsVal
  deriving DecidableEq, Repr

/-- Options object handed to `res.cookie`; `secure = none` means the key is absent. -/
structure CookieOptions where
  expires : Int
  httpOnly : Bool
  secure : Option Bool
  deriving DecidableEq, Repr

/-- A cookie set on the response. -/
structure Cookie where
  name : String
  value : String
  options : CookieOptions
  deriving DecidableEq, Repr

/-- The `data` member of a JSON body. -/
inductive Data where
  | empty
  | user (u : Option UserDoc)
  deriving DecidableEq, Repr

/-- JSON body of a response; `none` means the key is absent. -/
structure Body where
  success : Bool
  msg : Option String := none
  message : Option String := none
  error : Option String := none
  _id : Option Nat := none
  name : Option JsVal := none
  email : Option JsVal := none
  token : Option String := none
  data : Option Data := none
  deriving DecidableEq, Repr

/-- What a handler wrote to `res`. -/
structure Response where
  status : Nat
  cookie : Option Cookie := none
  body : Body
  deriving DecidableEq, Repr

/-- Result of running a handler: either it answered, or a rejection escaped it. -/
inductive Handled where
  | responded (r : Response)
  | uncaught (err : String)
  deriving DecidableEq, Repr

/-- `try { block } catch (err) { handler err }`. -/
def tryCatch (block : Except String Response) (handler : String → Response) : Handled :=
  match block with
  | .ok r => .responded r
  | .error e => .responded (handler e)

/-- A handler body that is not wrapped in `try`. -/
def noCatch (block : Except String Response) : Handled :=
  match block with
  | .ok r => .responded r
  | .error e => .uncaught e

/-! ## Token issuing -/

/-- The number `Date.now() + process.env.JWT_COOKIE_EXPIRE * 24 * 60 * 60 * 1000` when it
is finite.  For a clock value within the `Date` range and a whole number of days the
double arithmetic gives a valid time value exactly when the exact sum is one, and then
it is that sum (the products are multiples of `2 ^ 10`, held exactly by a double far
beyond the range), so the sum is formed exactly and `newDate` checks the range. -/
def expiresMs (env : Env) (now : Int) : Option Int :=
  match env.JWT_COOKIE_EXPIRE with
  | .int d => some (now + d * 24 * 60 * 60 * 1000)
  | _ => none

/-- `sendTokenResponse(user, statusCode, res)`; `signed` is the outcome of
`user.getSignedJwtToken()`.  `res.cookie` throws on an `expires` that is an invalid
date. -/
def sendTokenResponse (env : Env) (now : Int) (signed : Except String String)
    (user : UserDoc) (statusCode : Nat) : Except String Response := do
  let token ← signed
  match newDate (expiresMs env now) with
  | none => throw "option expires is invalid"
  | some expires =>
    let options : CookieOptions :=
      { expires := expires
        httpOnly := true
        secure := none }
    let options : CookieOptions :=
      if env.NODE_ENV = some "production" then { options with secure := some true } else options
    return { status := statusCode
             cookie := some { name := "token", value := token, options := options }
             body := { success := true, _id := some user._id, name := some user.name,
                       email := some user.email, token := some token } }

/-- The calls `register` and `login` make on the `User` model. -/
structure UserModel where
  create : (name email tel password role : JsVal) → Except String UserDoc
  findOne : (email : JsVal) → Except String (Option UserDoc)
  matchPassword : UserDoc → (entered : JsVal) → Except String Bool
  getSignedJwtToken : UserDoc → Except String String

/-- Destructuring `req.body`; throws when the body is `undefined`. -/
def destructure (body : Option ReqBody) : Except String ReqBody :=
  match body with
  | some b => .ok b
  | none => .error "Cannot destructure property of req.body as it is undefined."

/-- Handler `register`. -/
def register (env : Env) (now : Int) (User : UserModel) (body : Option ReqBody) : Handled :=
  tryCatch
    (do
      let b ← destructure body
      let user ← User.create (prop b "name") (prop b "email") (prop b "tel")
        (prop b "password") (prop b "role")
      sendTokenResponse env now (User.getSignedJwtToken user) user 200)
    (fun _ => { status := 400, body := { success := false } })

/-- Handler `login`; `User.findOne` stands for the lookup by email with the password field
selected. -/
def login (env : Env) (now : Int) (User : UserModel) (body : Option ReqBody) : Handled :=
  tryCatch
    (do
      let b ← destructure body
      let email := prop b "email"
      let password := prop b "password"
      if !email.truthy || !password.truthy then
        return { status := 400
                 body := { success := false, msg := some "Please provide an email and password" } }
      let user ← User.findOne email
      match user with
      | none =>
        return { status := 400, body := { success := false, msg := some "Invalid credentials" } }
      | some user =>
        let isMatch ← User.matchPassword user password
        if !isMatch then
          return { status := 401, body := { success := false, msg := some "Invalid credentials" } }
        sendTokenResponse env now (User.getSignedJwtToken user) user 200)
    (fun _ => { status := 401
                body := { success := false, msg := some "Cannot convert email or password to string" } })

/-- Handler `logout`. -/
def logout (now : Int) : Handled :=
  .responded
    { status := 200
      cookie := some { name := "token", value := "none",
                       options := { expires := now + 10 * 1000, httpOnly := true, secure := none } }
      body := { success := true, data := some Data.empty } }

/-! ## The stores -/

/-- A reservation document (`Ticketing`). -/
structure Ticketing where
  _id : Nat
  user : Nat
  event : Nat
  ticketAmount : JsNum
  deriving DecidableEq, Repr

/-- An event document; `name` stands for the fields the controller never touches. -/
structure Event where
  name : String
  availableTicket : JsNum
  deriving DecidableEq, Repr

/-- The three collections. -/
structure Store where
  users : Nat → Option UserDoc
  ticketings : List Ticketing
  events : Nat → Option Event

/-- A store call issued by a handler. -/
inductive StoreCall where
  | userFindById (id : Nat)
  | userFindByIdAndUpdate (id : Nat) (fields : List (String × JsVal))
  | userFindByIdAndDelete (id : Nat)
  | ticketingFind (user : Nat)
  | ticketingDeleteMany (user : Nat)
  | eventFindById (id : Nat)
  | eventSave (id : Nat) (doc : Event)
  deriving DecidableEq, Repr

/-- One entry of the call log: the call and whether it resolved. -/
structure Logged where
  call : StoreCall
  ok : Bool
  deriving DecidableEq, Repr

/-- Fault plan: `faults n = some msg` makes the n-th store call of the request
(counting from 0) reject with `msg`. -/
abbrev Faults := Nat → Option String

/-- The plan in which every store call resolves. -/
def noFaults : Faults := fun _ => none

/-- A handler run against the stores: its answer, the stores afterwards, the call log. -/
structure Run where
  outcome : Handled
  store : Store
  trace : List Logged

/-- Body of the `catch` blocks of `updateUser` and `deleteUser`. -/
def serverError (env : Env) (errMessage : String) : Response :=
  { status := 500
    body := { success := false, message := some "Server Error"
              error := if env.NODE_ENV = some "development" then some errMessage else none } }

/-- Handler `getMe`; `uid` is `req.user.id`. -/
def getMe (faults : Faults) (st : Store) (uid : Nat) : Run :=
  match faults 0 with
  | some e => ⟨noCatch (.error e), st, [⟨.userFindById uid, false⟩]⟩
  | none =>
    ⟨noCatch (.ok { status := 200, body := { success := true, data := some (Data.user (st.users uid)) } }),
      st, [⟨.userFindById uid, true⟩]⟩

/-! ## updateUser -/

/-- The object `updateFields` built from the body. -/
def updateFields (b : ReqBody) : List (String × JsVal) :=
  let name := prop b "name"
  let tel := prop b "tel"
  (if name ≠ JsVal.undefined then [("name", name)] else [])
    ++ (if tel ≠ JsVal.undefined then [("tel", tel)] else [])

/-- Effect of the update document on one user document: the listed keys are set. -/
def applyFields (u : UserDoc) : List (String × JsVal) → UserDoc
  | [] => u
  | (k, v) :: rest =>
    let u1 : UserDoc :=
      if k = "name" then { u with name := v }
      else if k = "tel" then { u with tel := v }
      else if k = "email" then { u with email := v }
      else if k = "role" then { u with role := v }
      else if k = "password" then { u with password := v }
      else u
    applyFields u1 rest

/-- Handler `updateUser`; `uid` is `req.user.id`. -/
def updateUser (env : Env) (faults : Faults) (st : Store) (uid : Nat)
    (body : Option ReqBody) : Run :=
  match destructure body with
  | .error e => ⟨.responded (serverError env e), st, []⟩
  | .ok b =>
    let fields := updateFields b
    if fields.length = 0 then
      ⟨.responded { status := 400
                    body := { success := false
                              message := some "Please provide name or tel to update" } },
        st, []⟩
    else
      match faults 0 with
      | some e =>
        ⟨.responded (serverError env e), st, [⟨.userFindByIdAndUpdate uid fields, false⟩]⟩
      | none =>
        match st.users uid with
        | none =>
          ⟨.responded { status := 404, body := { success := false, message := some "User not found" } },
            st, [⟨.userFindByIdAndUpdate uid fields, true⟩]⟩
        | some u =>
          let user := applyFields u fields
          ⟨.responded { status := 200, body := { success := true, data := some (Data.user (some user)) } },
            { st with users := Function.update st.users uid (some user) },
            [⟨.userFindByIdAndUpdate uid fields, true⟩]⟩

/-! ## deleteUser -/

/-- The loop `for (const ticketing of ticketings)`: returns the stores and call
log reached, and the rejection that interrupted the loop if there was one. -/
def restoreTickets (faults : Faults) :
    List Ticketing → Store → List Logged → Store × List Logged × Option String
  | [], st, tr => (st, tr, none)
  | ticketing :: rest, st, tr =>
    match faults tr.length with
    | some e => (st, tr ++ [⟨.eventFindById ticketing.event, false⟩], some e)
    | none =>
      let tr1 := tr ++ [⟨.eventFindById ticketing.event, true⟩]
      match st.events ticketing.event with
      | none => restoreTickets faults rest st tr1
      | some event =>
        let event : Event :=
          { event with availableTicket := event.availableTicket.add ticketing.ticketAmount }
        match faults tr1.length with
        | some e => (st, tr1 ++ [⟨.eventSave ticketing.event event, false⟩], some e)
        | none =>
          restoreTickets faults rest
            { st with events := Function.update st.events ticketing.event (some event) }
            (tr1 ++ [⟨.eventSave ticketing.event event, true⟩])

/-- Handler `deleteUser`; `uid` is `req.user.id`. -/
def deleteUser (env : Env) (faults : Faults) (st : Store) (uid : Nat) : Run :=
  match faults 0 with
  | some e => ⟨.responded (serverError env e), st, [⟨.userFindById uid, false⟩]⟩
  | none =>
    let tr0 : List Logged := [⟨.userFindById uid, true⟩]
    match st.users uid with
    | none =>
      ⟨.responded { status := 404, body := { success := false, message := some "User not found" } },
        st, tr0⟩
    | some _ =>
      match faults tr0.length with
      | some e => ⟨.responded (serverError env e), st, tr0 ++ [⟨.ticketingFind uid, false⟩]⟩
      | none =>
        let ticketings := st.ticketings.filter (fun t => t.user = uid)
        let tr1 := tr0 ++ [⟨.ticketingFind uid, true⟩]
        match restoreTickets faults ticketings st tr1 with
        | (st2, tr2, some e) => ⟨.responded (serverError env e), st2, tr2⟩
        | (st2, tr2, none) =>
          match faults tr2.length with
          | some e =>
            ⟨.responded (serverError env e), st2, tr2 ++ [⟨.ticketingDeleteMany uid, false⟩]⟩
          | none =>
            let st3 : Store :=
              { st2 with ticketings := st2.ticketings.filter (fun t => ¬ t.user = uid) }
            let tr3 := tr2 ++ [⟨.ticketingDeleteMany uid, true⟩]
            match faults tr3.length with
            | some e =>
              ⟨.responded (serverError env e), st3, tr3 ++ [⟨.userFindByIdAndDelete uid, false⟩]⟩
            | none =>
              ⟨.responded
                  { status := 200
                    body := { success := true
                              message := some "User account and all associated reservations deleted successfully" } },
                { st3 with users := Function.update st3.users uid none },
                tr3 ++ [⟨.userFindByIdAndDelete uid, true⟩]⟩

/-- Status of the answer, when there is one. -/
def Handled.status : Handled → Option Nat
  | .responded r => some r.status
  | .uncaught _ => none

/-- The reservations of `uid` on event `eid`, in store order. -/
def reservationsOn (ts : List Ticketing) (uid eid : Nat) : List Ticketing :=
  ts.filter (fun t => t.user = uid ∧ t.event = eid)

/-- Tickets of `uid` reserved on event `eid`, summed over a reservation list. -/
def reservedOn (ts : List Ticketing) (uid eid : Nat) : Int :=
  ((reservationsOn ts uid eid).map (fun t => t.ticketAmount.toInt)).sum

/-- Sum of the magnitudes of the tickets of `uid` reserved on event `eid`. -/
def reservedMagnitude (ts : List Ticketing) (uid eid : Nat) : Nat :=
  ((reservationsOn ts uid eid).map (fun t => t.ticketAmount.toInt.natAbs)).sum

/-! ## Auxiliary definitions for the statements -/

/-- The three failure answers of `login` and the `catch` answer. -/
def loginFailure (status : Nat) (msg : String) : Response :=
  { status := status, body := { success := false, msg := some msg } }

/-- The event document after `event.availableTicket += amount`. -/
def credited (amount : JsNum) (ev : Event) : Event :=
  { ev with availableTicket := ev.availableTicket.add amount }

/-- The event document after crediting the reservations of a list, one after the other. -/
def creditAll (ts : List Ticketing) (ev : Event) : Event :=
  ts.foldl (fun e t => credited t.ticketAmount e) ev

/-- The reservations of a list that reference event `eid`. -/
def onEvent (ts : List Ticketing) (eid : Nat) : List Ticketing :=
  ts.filter (fun t => t.event = eid)

/-- The stores after the loop has credited the tickets of `t` to the event `ev` it found. -/
def creditEvent (st : Store) (t : Ticketing) (ev : Event) : Store :=
  { st with events := Function.update st.events t.event (some (credited t.ticketAmount ev)) }

/-- The two log entries of a completed loop iteration on an existing event. -/
def savedEntries (t : Ticketing) (ev : Event) (saved : Bool) : List Logged :=
  [⟨.eventFindById t.event, true⟩, ⟨.eventSave t.event (credited t.ticketAmount ev), saved⟩]

/-- An event-store call. -/
def StoreCall.isEventCall : StoreCall → Bool
  | .eventFindById _ => true
  | .eventSave _ _ => true
  | _ => false

/-- The answer of a completed profile update. -/
def updatedResponse (user : UserDoc) : Response :=
  { status := 200, body := { success := true, data := some (Data.user (some user)) } }

/-- The answer of a completed account deletion. -/
def deletedResponse : Response :=
  { status := 200
    body := { success := true
              message := some "User account and all associated reservations deleted successfully" } }

/-! ## Sample data used to instantiate the theorems -/

/-- A registered user. -/
def alice : UserDoc :=
  { _id := 1, name := .str "Alice", email := .str "alice@x.com", tel := .str "0811111111",
    role := .str "member", password := .str "hash-of-secret" }

/-- A `User` model holding only `alice`, whose password is `secret`. -/
def sampleModel : UserModel :=
  { create := fun name email tel password role =>
      .ok { _id := 2, name := name, email := email, tel := tel, role := role, password := password }
    findOne := fun email => .ok (if email = .str "alice@x.com" then some alice else none)
    matchPassword := fun _ entered => .ok (decide (entered = .str "secret"))
    getSignedJwtToken := fun _ => .ok "signed-jwt" }

/-- Login body with an email no user has. -/
def unknownEmailBody : ReqBody := [("email", .str "nobody@x.com"), ("password", .str "secret")]

/-- Login body with the email of `alice` and a wrong password. -/
def wrongPasswordBody : ReqBody := [("email", .str "alice@x.com"), ("password", .str "guess")]

/-- A second registered user. -/
def bob : UserDoc :=
  { _id := 2, name := .str "Bob", email := .str "bob@x.com", tel := .str "0822222222",
    role := .str "member", password := .str "hash-of-hunter2" }

/-- Two users; `alice` (id 1) holds 3 and 2 tickets on event 100 and 7 tickets on the
deleted event 999, `bob` (id 2) holds 4 tickets on event 100 and 1 on event 101. -/
def sampleStore : Store :=
  { users := fun i => if i = 1 then some alice else if i = 2 then some bob else none
    ticketings :=
      [ { _id := 10, user := 1, event := 100, ticketAmount := .int 3 },
        { _id := 11, user := 1, event := 100, ticketAmount := .int 2 },
        { _id := 12, user := 2, event := 100, ticketAmount := .int 4 },
        { _id := 13, user := 1, event := 999, ticketAmount := .int 7 },
        { _id := 14, user := 2, event := 101, ticketAmount := .int 1 } ]
    events := fun i =>
      if i = 100 then some { name := "Concert", availableTicket := .int 50 }
      else if i = 101 then some { name := "Expo", availableTicket := .int 20 }
      else none }

/-- The sample store with the stock of event 100 raised to `2 ^ 53`, the first whole number
whose successor a double cannot hold, and a single ticket of `alice` on it. -/
def fullStore : Store :=
  { sampleStore with
    ticketings :=
      [ { _id := 10, user := 1, event := 100, ticketAmount := .int 1 },
        { _id := 13, user := 1, event := 999, ticketAmount := .int 7 } ]
    events := fun i =>
      if i = 100 then some { name := "Concert", availableTicket := .int 9007199254740992 }
      else none }

/-- A production environment whose cookie lifetime of 200 000 000 days lies beyond the
`Date` range. -/
def farEnv : Env := { NODE_ENV := some "production", JWT_COOKIE_EXPIRE := .int 200000000 }

/-- Login body of `alice` with her password. -/
def aliceBody : ReqBody := [("email", .str "alice@x.com"), ("password", .str "secret")]

/-- A fault plan rejecting the fourth store call (index 3) only. -/
def saveFails : Faults := fun n => if n = 3 then some "save failed" else none

/-- A fault plan rejecting every store call. -/
def storeDown : Faults := fun _ => some "connection lost"

/-- The body of the allow-list example: one allowed and two forbidden fields. -/
def escalationBody : ReqBody :=
  [("name", .str "X"), ("role", .str "admin"), ("email", .str "new@x.com")]

/-- A production environment with a thirty day cookie. -/
def prodEnv : Env := { NODE_ENV := some "production", JWT_COOKIE_EXPIRE := .int 30 }

/-- A development environment with a thirty day cookie. -/
def devEnv : Env := { NODE_ENV := some "development", JWT_COOKIE_EXPIRE := .int 30 }

/-- Cookie of a production login of `alice` at clock 0. -/
def loginCookie0 : Cookie :=
  { name := "token", value := "signed-jwt"
    options := { expires := 2592000000, httpOnly := true, secure := some true } }

/-- Cookie written by a logout at clock 0. -/
def logoutCookie0 : Cookie :=
  { name := "token", value := "none"
    options := { expires := 10000, httpOnly := true, secure := none } }

/-- The response `sendTokenResponse` writes once the token is signed and the expiry date
`expires` is valid. -/
def tokenResponse (env : Env) (expires : Int) (token : String) (user : UserDoc)
    (statusCode : Nat) : Response :=
  { status := statusCode
    cookie := some
      { name := "token", value := token
        options :=
          { expires := expires
            httpOnly := true
            secure := if env.NODE_ENV = some "production" then some true else none } }
    body := { success := true, _id := some user._id, name := some user.name,
              email := some user.email, token := some token } }

/-! ## Token issuing and logout -/

theorem newDate_some (ms : Option Int) (e : Int) (h : newDate ms = some e) :
    ms = some e ∧ -maxTime ≤ e ∧ e ≤ maxTime := by
  cases ms with
  | none => simp [newDate] at h
  | some t =>
    by_cases hv : -maxTime ≤ t ∧ t ≤ maxTime
    · simp [newDate, hv] at h
      subst h
      exact ⟨rfl, hv.1, hv.2⟩
    · simp only [newDate, hv, if_false] at h
      cases h

theorem newDate_expiresMs (env : Env) (now d : Int) (hd : env.JWT_COOKIE_EXPIRE = .int d)
    (hlo : -maxTime ≤ now + d * 24 * 60 * 60 * 1000)
    (hhi : now + d * 24 * 60 * 60 * 1000 ≤ maxTime) :
    newDate (expiresMs env now) = some (now + d * 24 * 60 * 60 * 1000) := by
  simp [expiresMs, hd, newDate, hlo, hhi]

theorem sendTokenResponse_ok (env : Env) (now expires : Int) (token : String) (user : UserDoc)
    (statusCode : Nat) (h : newDate (expiresMs env now) = some expires) :
    sendTokenResponse env now (.ok token) user statusCode
      = .ok (tokenResponse env expires token user statusCode) := by
  unfold sendTokenResponse tokenResponse
  by_cases hp : env.NODE_ENV = some "production" <;>
    simp [h, hp, bind, Except.bind, pure, Except.pure]

theorem sendTokenResponse_invalid (env : Env) (now : Int) (signed : Except String String)
    (user : UserDoc) (statusCode : Nat) (h : newDate (expiresMs env now) = none) :
    ∃ e, sendTokenResponse env now signed user statusCode = .error e := by
  cases signed with
  | error e => exact ⟨e, rfl⟩
  | ok token =>
    refine ⟨"option expires is invalid", ?_⟩
    simp [sendTokenResponse, h, bind, Except.bind, throw, throwThe, MonadExceptOf.throw]

theorem sendTokenResponse_inv (env : Env) (now : Int) (signed : Except String String)
    (user : UserDoc) (statusCode : Nat) (r : Response)
    (h : sendTokenResponse env now signed user statusCode = .ok r) :
    ∃ token expires, signed = .ok token ∧ newDate (expiresMs env now) = some expires
      ∧ r = tokenResponse env expires token user statusCode := by
  cases signed with
  | error e => cases h
  | ok token =>
    cases hv : newDate (expiresMs env now) with
    | none =>
      obtain ⟨e, he⟩ := sendTokenResponse_invalid env now (.ok token) user statusCode hv
      rw [he] at h
      cases h
    | some expires =>
      rw [sendTokenResponse_ok env now expires token user statusCode hv] at h
      exact ⟨token, expires, rfl, rfl, (Except.ok.inj h).symm⟩

/-- C9 as stated fails: with a cookie lifetime of 200 000 000 days at clock 0 the expiry
`0 + 200000000 * 24 * 60 * 60 * 1000` lies beyond the `Date` range, `res.cookie` throws,
`sendTokenResponse` sets no cookie and writes no body, and the login of `alice` with her
right password is answered 401 without cookie or token. -/
theorem sendTokenResponse_invalid_date :
    farEnv.JWT_COOKIE_EXPIRE = JsNum.int 200000000
      ∧ maxTime < 0 + 200000000 * 24 * 60 * 60 * 1000
      ∧ sendTokenResponse farEnv 0 (.ok "signed-jwt") alice 200
          = .error "option expires is invalid"
      ∧ sampleModel.findOne (prop aliceBody "email") = .ok (some alice)
      ∧ sampleModel.matchPassword alice (prop aliceBody "password") = .ok true
      ∧ login farEnv 0 sampleModel (some aliceBody)
          = .responded (loginFailure 401 "Cannot convert email or password to string")
      ∧ (loginFailure 401 "Cannot convert email or password to string").cookie = none
      ∧ (loginFailure 401 "Cannot convert email or password to string").body.token = none := by
  refine ⟨rfl, by decide, by rfl, by rfl, by rfl, by decide, rfl, rfl⟩

/-- C9 amended: for every clock value, whole cookie lifetime of `d` days and deployment
mode such that `now + d * 24 * 60 * 60 * 1000` is a valid `Date` time value (magnitude at
most 8 640 000 000 000 000 ms), `sendTokenResponse` sets the cookie `token` with
`expires = now + d * 24 * 60 * 60 * 1000`, `httpOnly = true`, and `secure = true` exactly
when the mode is `"production"` (the key is absent otherwise); the body carries
`success = true`, the user's `_id`, `name`, `email` and the token that was put in the
cookie.  `register` and `login` answer with this response on their success paths. -/
theorem sendTokenResponse_cookie_and_body (env : Env) (now d : Int) (token : String)
    (user : UserDoc) (statusCode : Nat) (hd : env.JWT_COOKIE_EXPIRE = JsNum.int d)
    (hlo : -maxTime ≤ now + d * 24 * 60 * 60 * 1000)
    (hhi : now + d * 24 * 60 * 60 * 1000 ≤ maxTime) :
    ∃ r c, sendTokenResponse env now (.ok token) user statusCode = .ok r
      ∧ r.status = statusCode
      ∧ r.cookie = some c
      ∧ c.name = "token"
      ∧ c.value = token
      ∧ c.options.expires = now + d * 24 * 60 * 60 * 1000
      ∧ c.options.httpOnly = true
      ∧ (c.options.secure = some true ↔ env.NODE_ENV = some "production")
      ∧ (c.options.secure = none ↔ ¬ env.NODE_ENV = some "production")
      ∧ r.body = { success := true, _id := some user._id, name := some user.name,
                   email := some user.email, token := some token }
      ∧ (∀ (User : UserModel) (b : ReqBody),
          User.create (prop b "name") (prop b "email") (prop b "tel") (prop b "password")
              (prop b "role") = .ok user →
          User.getSignedJwtToken user = .ok token →
          statusCode = 200 →
          register env now User (some b) = .responded r)
      ∧ (∀ (User : UserModel) (b : ReqBody),
          (prop b "email").truthy = true → (prop b "password").truthy = true →
          User.findOne (prop b "email") = .ok (some user) →
          User.matchPassword user (prop b "password") = .ok true →
          User.getSignedJwtToken user = .ok token →
          statusCode = 200 →
          login env now User (some b) = .responded r) := by
  have hv := newDate_expiresMs env now d hd hlo hhi
  refine ⟨tokenResponse env (now + d * 24 * 60 * 60 * 1000) token user statusCode, _,
    sendTokenResponse_ok _ _ _ _ _ _ hv, rfl, rfl, rfl, rfl, rfl, rfl, ?_, ?_, rfl, ?_, ?_⟩
  · by_cases h : env.NODE_ENV = some "production" <;> simp [h]
  · by_cases h : env.NODE_ENV = some "production" <;> simp [h]
  · intro User b hc hs h200
    subst h200
    simp [register, tryCatch, destructure, bind, Except.bind, hc, hs,
      sendTokenResponse_ok _ _ _ _ _ _ hv]
  · intro User b he hp hf hm hs h200
    subst h200
    simp [login, tryCatch, destructure, bind, Except.bind, pure, Except.pure, he, hp, hf, hm, hs,
      sendTokenResponse_ok _ _ _ _ _ _ hv]

/-- C9 amended, instantiated: a production login of `alice` at clock 1000 with a thirty day
cookie. -/
theorem sendTokenResponse_cookie_and_body_witness :
    (prodEnv.JWT_COOKIE_EXPIRE = JsNum.int 30
        ∧ -maxTime ≤ 1000 + 30 * 24 * 60 * 60 * 1000
        ∧ 1000 + 30 * 24 * 60 * 60 * 1000 ≤ maxTime)
      ∧ sendTokenResponse prodEnv 1000 (.ok "signed-jwt") alice 200
        = .ok (tokenResponse prodEnv 2592001000 "signed-jwt" alice 200)
      ∧ (tokenResponse prodEnv 2592001000 "signed-jwt" alice 200).cookie
          = some { name := "token", value := "signed-jwt"
                   options := { expires := 2592001000, httpOnly := true, secure := some true } }
      ∧ login prodEnv 1000 sampleModel (some aliceBody)
          = .responded (tokenResponse prodEnv 2592001000 "signed-jwt" alice 200) := by
  obtain ⟨r, c, h1, _, _, _, _, _, _, _, _, _, _, h12⟩ :=
    sendTokenResponse_cookie_and_body prodEnv 1000 30 "signed-jwt" alice 200 rfl
      (by decide) (by decide)
  have hr : r = tokenResponse prodEnv 2592001000 "signed-jwt" alice 200 := by
    rw [sendTokenResponse_ok prodEnv 1000 2592001000 "signed-jwt" alice 200 (by decide)] at h1
    exact (Except.ok.inj h1).symm
  subst hr
  refine ⟨⟨rfl, by decide, by decide⟩, h1, by decide, ?_⟩
  exact h12 sampleModel aliceBody (by decide) (by decide) (by rfl) (by rfl) rfl rfl

/-- C10: for every clock value `logout` answers 200 with body `success = true, data = {}`
and overwrites the cookie `token` with the value `"none"`, `httpOnly = true` and
`expires = now + 10 * 1000`; this holds for each call of any sequence of logout calls,
and for a cookie lifetime of `d >= 1` days the expiry differs from the login cookie
expiry `now + d * 86400000`. -/
theorem logout_overwrites_cookie (now : Int) :
    logout now = .responded
        { status := 200
          cookie := some { name := "token", value := "none"
                           options := { expires := now + 10 * 1000, httpOnly := true,
                                        secure := none } }
          body := { success := true, data := some Data.empty } }
      ∧ (∀ clocks : List Int, ∀ h ∈ clocks.map logout,
          ∃ t r c, t ∈ clocks ∧ h = .responded r ∧ r.status = 200 ∧ r.cookie = some c
            ∧ c.value = "none" ∧ c.options.expires = t + 10000)
      ∧ (∀ (env : Env) (d : Int) (token : String) (user : UserDoc) (r l : Response)
          (c k : Cookie),
          env.JWT_COOKIE_EXPIRE = JsNum.int d → 1 ≤ d →
          sendTokenResponse env now (.ok token) user 200 = .ok r → r.cookie = some c →
          logout now = .responded l → l.cookie = some k →
          c.options.expires = now + d * 86400000
            ∧ k.options.expires ≠ c.options.expires) := by
  refine ⟨rfl, ?_, ?_⟩
  · intro clocks h hh
    obtain ⟨t, ht, rfl⟩ := List.mem_map.mp hh
    exact ⟨t, _, _, ht, rfl, rfl, rfl, rfl, rfl⟩
  · intro env d token user r l c k hd hd1 hr hc hl hk
    obtain ⟨token1, expires, _, hv, rfl⟩ := sendTokenResponse_inv _ _ _ _ _ _ hr
    obtain ⟨hms, _, _⟩ := newDate_some _ _ hv
    simp only [expiresMs, hd, Option.some.injEq] at hms
    simp only [tokenResponse, Option.some.injEq] at hc
    subst hc
    simp only [logout, Handled.responded.injEq] at hl
    subst hl
    simp only [Option.some.injEq] at hk
    subst hk
    refine ⟨by simp only []; omega, ?_⟩
    simp only []
    omega

/-- C10 instantiated: logout at clock 0 against a thirty day production login cookie. -/
theorem logout_overwrites_cookie_witness :
    (prodEnv.JWT_COOKIE_EXPIRE = JsNum.int 30 ∧ (1 : Int) ≤ 30)
      ∧ logoutCookie0.options.expires = 10000
      ∧ loginCookie0.options.expires = 0 + 30 * 86400000
      ∧ logoutCookie0.options.expires ≠ loginCookie0.options.expires := by
  have h := (logout_overwrites_cookie 0).2.2 prodEnv 30 "signed-jwt" alice
    (tokenResponse prodEnv 2592000000 "signed-jwt" alice 200)
    { status := 200, cookie := some logoutCookie0, body := { success := true, data := some Data.empty } }
    loginCookie0 logoutCookie0 rfl (by decide)
    (sendTokenResponse_ok prodEnv 0 2592000000 "signed-jwt" alice 200 (by decide))
    (by decide) (by decide) rfl
  exact ⟨⟨rfl, by decide⟩, by decide, h.1, h.2⟩

/-! ## login -/

/-- Case analysis of `login`: which answer is produced in which situation. -/
theorem login_cases (env : Env) (now : Int) (User : UserModel) (body : Option ReqBody) :
    (∃ b user token expires, body = some b
        ∧ (prop b "email").truthy = true ∧ (prop b "password").truthy = true
        ∧ User.findOne (prop b "email") = .ok (some user)
        ∧ User.matchPassword user (prop b "password") = .ok true
        ∧ User.getSignedJwtToken user = .ok token
        ∧ newDate (expiresMs env now) = some expires
        ∧ login env now User body = .responded (tokenResponse env expires token user 200))
    ∨ (∃ b, body = some b
        ∧ ((prop b "email").truthy = false ∨ (prop b "password").truthy = false)
        ∧ login env now User body
            = .responded (loginFailure 400 "Please provide an email and password"))
    ∨ (∃ b, body = some b
        ∧ (prop b "email").truthy = true ∧ (prop b "password").truthy = true
        ∧ User.findOne (prop b "email") = .ok none
        ∧ login env now User body = .responded (loginFailure 400 "Invalid credentials"))
    ∨ (∃ b user, body = some b
        ∧ (prop b "email").truthy = true ∧ (prop b "password").truthy = true
        ∧ User.findOne (prop b "email") = .ok (some user)
        ∧ User.matchPassword user (prop b "password") = .ok false
        ∧ login env now User body = .responded (loginFailure 401 "Invalid credentials"))
    ∨ (login env now User body
          = .responded (loginFailure 401 "Cannot convert email or password to string")
        ∧ (body = none
          ∨ ∃ b, body = some b
            ∧ (prop b "email").truthy = true ∧ (prop b "password").truthy = true
            ∧ ((∃ e, User.findOne (prop b "email") = .error e)
              ∨ ∃ user, User.findOne (prop b "email") = .ok (some user)
                ∧ ((∃ e, User.matchPassword user (prop b "password") = .error e)
                  ∨ (User.matchPassword user (prop b "password") = .ok true
                    ∧ ((∃ e, User.getSignedJwtToken user = .error e)
                      ∨ newDate (expiresMs env now) = none)))))) := by
  cases body with
  | none =>
    right; right; right; right
    exact ⟨rfl, Or.inl rfl⟩
  | some b =>
    by_cases he : (prop b "email").truthy = true
    swap
    · right; left
      refine ⟨b, rfl, Or.inl (by simpa using he), ?_⟩
      simp [login, tryCatch, destructure, bind, Except.bind, pure, Except.pure, he, loginFailure]
    by_cases hp : (prop b "password").truthy = true
    swap
    · right; left
      refine ⟨b, rfl, Or.inr (by simpa using hp), ?_⟩
      simp [login, tryCatch, destructure, bind, Except.bind, pure, Except.pure, hp, loginFailure]
    cases hf : User.findOne (prop b "email") with
    | error e =>
      right; right; right; right
      refine ⟨?_, Or.inr ⟨b, rfl, he, hp, Or.inl ⟨e, hf⟩⟩⟩
      simp [login, tryCatch, destructure, bind, Except.bind, pure, Except.pure, he, hp, hf,
        loginFailure]
    | ok found =>
      cases found with
      | none =>
        right; right; left
        refine ⟨b, rfl, he, hp, hf, ?_⟩
        simp [login, tryCatch, destructure, bind, Except.bind, pure, Except.pure, he, hp, hf,
          loginFailure]
      | some user =>
        cases hm : User.matchPassword user (prop b "password") with
        | error e =>
          right; right; right; right
          refine ⟨?_, Or.inr ⟨b, rfl, he, hp, Or.inr ⟨user, hf, Or.inl ⟨e, hm⟩⟩⟩⟩
          simp [login, tryCatch, destructure, bind, Except.bind, pure, Except.pure, he, hp, hf,
            hm, loginFailure]
        | ok isMatch =>
          cases isMatch with
          | false =>
            right; right; right; left
            refine ⟨b, user, rfl, he, hp, hf, hm, ?_⟩
            simp [login, tryCatch, destructure, bind, Except.bind, pure, Except.pure, he, hp, hf,
              hm, loginFailure]
          | true =>
            cases hs : User.getSignedJwtToken user with
            | error e =>
              right; right; right; right
              refine ⟨?_, Or.inr ⟨b, rfl, he, hp, Or.inr ⟨user, hf, Or.inr ⟨hm, Or.inl ⟨e, hs⟩⟩⟩⟩⟩
              simp [login, tryCatch, destructure, bind, Except.bind, pure, Except.pure, he, hp,
                hf, hm, hs, loginFailure, sendTokenResponse]
            | ok token =>
              cases hv : newDate (expiresMs env now) with
              | none =>
                right; right; right; right
                refine ⟨?_, Or.inr ⟨b, rfl, he, hp, Or.inr ⟨user, hf, Or.inr ⟨hm, Or.inr rfl⟩⟩⟩⟩
                obtain ⟨e, hthrow⟩ := sendTokenResponse_invalid env now (.ok token) user 200 hv
                simp [login, tryCatch, destructure, bind, Except.bind, pure, Except.pure, he, hp,
                  hf, hm, hs, loginFailure, hthrow]
              | some expires =>
                left
                refine ⟨b, user, token, expires, rfl, he, hp, hf, hm, hs, rfl, ?_⟩
                simp [login, tryCatch, destructure, bind, Except.bind, pure, Except.pure, he, hp,
                  hf, hm, hs, sendTokenResponse_ok _ _ _ _ _ _ hv]

theorem truthy_ne_undefined (v : JsVal) (h : v.truthy = true) : v ≠ JsVal.undefined := by
  intro hv
  subst hv
  simp [JsVal.truthy] at h

/-- C4: `login` always answers; the answer is either the 200 token response, and then both
`email` and `password` were present, a user with that email was found and `matchPassword`
returned true, or it has status 400 or 401 (so neither 200 nor 500), no token and no
cookie.  Exceptions thrown by the body destructuring, the store lookup, the password
comparison or the token signing are all covered. -/
theorem login_token_only_on_match (env : Env) (now : Int) (User : UserModel)
    (body : Option ReqBody) :
    ∃ r, login env now User body = .responded r
      ∧ ((r.status = 200
            ∧ (∃ c, r.cookie = some c ∧ c.name = "token" ∧ r.body.token = some c.value)
            ∧ ∃ b user, body = some b
                ∧ prop b "email" ≠ JsVal.undefined ∧ prop b "password" ≠ JsVal.undefined
                ∧ User.findOne (prop b "email") = .ok (some user)
                ∧ User.matchPassword user (prop b "password") = .ok true)
        ∨ ((r.status = 400 ∨ r.status = 401) ∧ r.status ≠ 200 ∧ r.status ≠ 500
            ∧ r.cookie = none ∧ r.body.token = none)) := by
  rcases login_cases env now User body with
    ⟨b, user, token, expires, hb, he, hp, hf, hm, _, _, h⟩ | ⟨b, _, _, h⟩ | ⟨b, _, _, _, _, h⟩
      | ⟨b, user, _, _, _, _, _, h⟩ | ⟨h, _⟩
  · exact ⟨_, h, Or.inl ⟨rfl, ⟨_, rfl, rfl, rfl⟩, b, user, hb, truthy_ne_undefined _ he,
      truthy_ne_undefined _ hp, hf, hm⟩⟩
  · exact ⟨_, h, Or.inr ⟨Or.inl rfl, by decide, by decide, rfl, rfl⟩⟩
  · exact ⟨_, h, Or.inr ⟨Or.inl rfl, by decide, by decide, rfl, rfl⟩⟩
  · exact ⟨_, h, Or.inr ⟨Or.inr rfl, by decide, by decide, rfl, rfl⟩⟩
  · exact ⟨_, h, Or.inr ⟨Or.inr rfl, by decide, by decide, rfl, rfl⟩⟩

/-- C5 fails on the code: with both fields present, the login with an unknown email is
answered 400 and the login with the email of `alice` and a wrong password is answered 401,
both with the message `Invalid credentials`; the status tells the two cases apart. -/
theorem login_enumeration_status_differs :
    (prop unknownEmailBody "email").truthy = true
      ∧ (prop unknownEmailBody "password").truthy = true
      ∧ (prop wrongPasswordBody "email").truthy = true
      ∧ (prop wrongPasswordBody "password").truthy = true
      ∧ sampleModel.findOne (prop unknownEmailBody "email") = .ok none
      ∧ sampleModel.findOne (prop wrongPasswordBody "email") = .ok (some alice)
      ∧ sampleModel.matchPassword alice (prop wrongPasswordBody "password") = .ok false
      ∧ (login devEnv 0 sampleModel (some unknownEmailBody)).status = some 400
      ∧ (login devEnv 0 sampleModel (some wrongPasswordBody)).status = some 401
      ∧ (login devEnv 0 sampleModel (some unknownEmailBody)).status
          ≠ (login devEnv 0 sampleModel (some wrongPasswordBody)).status
      ∧ login devEnv 0 sampleModel (some unknownEmailBody)
          = .responded (loginFailure 400 "Invalid credentials")
      ∧ login devEnv 0 sampleModel (some wrongPasswordBody)
          = .responded (loginFailure 401 "Invalid credentials") := by
  refine ⟨by decide, by decide, by decide, by decide, by rfl, by rfl, by rfl, by decide,
    by decide, by decide, by decide, by decide⟩

/-! ## updateUser -/

theorem updateFields_eq (b : ReqBody) :
    updateFields b
      = (if prop b "name" ≠ JsVal.undefined then [("name", prop b "name")] else [])
        ++ (if prop b "tel" ≠ JsVal.undefined then [("tel", prop b "tel")] else []) := rfl

theorem mem_updateFields (b : ReqBody) (kv : String × JsVal) (h : kv ∈ updateFields b) :
    (kv.1 = "name" ∨ kv.1 = "tel") ∧ kv.2 = prop b kv.1 ∧ kv.2 ≠ JsVal.undefined := by
  rw [updateFields_eq] at h
  by_cases hn : prop b "name" = JsVal.undefined <;>
    by_cases ht : prop b "tel" = JsVal.undefined <;>
    simp [hn, ht] at h
  · subst h; exact ⟨Or.inr rfl, rfl, ht⟩
  · subst h; exact ⟨Or.inl rfl, rfl, hn⟩
  · rcases h with h | h
    · subst h; exact ⟨Or.inl rfl, rfl, hn⟩
    · subst h; exact ⟨Or.inr rfl, rfl, ht⟩

/-- Applying an update whose keys are among `name`, `tel` changes no other field. -/
theorem applyFields_frame (fields : List (String × JsVal))
    (hkeys : ∀ kv ∈ fields, kv.1 = "name" ∨ kv.1 = "tel") (u : UserDoc) :
    (applyFields u fields)._id = u._id ∧ (applyFields u fields).email = u.email
      ∧ (applyFields u fields).role = u.role
      ∧ (applyFields u fields).password = u.password := by
  induction fields generalizing u with
  | nil => exact ⟨rfl, rfl, rfl, rfl⟩
  | cons kv rest ih =>
    obtain ⟨k, v⟩ := kv
    have hk := hkeys (k, v) (List.mem_cons_self _ _)
    have hrest : ∀ kv ∈ rest, kv.1 = "name" ∨ kv.1 = "tel" :=
      fun kv hkv => hkeys kv (List.mem_cons_of_mem _ hkv)
    rcases hk with hk | hk
    · have hk1 : k = "name" := hk
      subst hk1
      simpa [applyFields] using ih hrest { u with name := v }
    · have hk1 : k = "tel" := hk
      subst hk1
      have hne : ¬ ("tel" = "name") := by decide
      simpa [applyFields, hne] using ih hrest { u with tel := v }

theorem applyFields_updateFields (u : UserDoc) (b : ReqBody) :
    (applyFields u (updateFields b)).name
        = (if prop b "name" ≠ JsVal.undefined then prop b "name" else u.name)
      ∧ (applyFields u (updateFields b)).tel
        = (if prop b "tel" ≠ JsVal.undefined then prop b "tel" else u.tel) := by
  rw [updateFields_eq]
  have hne : ¬ ("tel" = "name") := by decide
  by_cases hn : prop b "name" = JsVal.undefined <;>
    by_cases ht : prop b "tel" = JsVal.undefined <;>
    simp [hn, ht, applyFields, hne]

/-- C3: the update document `updateUser` hands to `User.findByIdAndUpdate` has keys among
`name`, `tel`, each with the value the body has for it (and it holds every one of the two
that the body supplies).  Whenever the body supplies one of them the handler issues
exactly one store call, `User.findByIdAndUpdate` of the authenticated id with that
document (and none otherwise); for the body `name = X, role = admin, email = new@x.com`
the document is exactly `name = X`.  When the call resolves on an existing user the
answer is 200 with the stored user, whose `name` and `tel` are the supplied body values
(or what they were when not supplied), and in every case the `email`, `role`, `password`
and `_id` of the user are what they were, as are all other users. -/
theorem updateUser_allow_list (env : Env) (faults : Faults) (st : Store) (uid : Nat)
    (b : ReqBody) :
    (∀ kv ∈ updateFields b, (kv.1 = "name" ∨ kv.1 = "tel") ∧ kv.2 = prop b kv.1)
      ∧ (∀ key, (key = "name" ∨ key = "tel") → prop b key ≠ JsVal.undefined →
          (key, prop b key) ∈ updateFields b)
      ∧ (∀ l ∈ (updateUser env faults st uid (some b)).trace,
          l.call = StoreCall.userFindByIdAndUpdate uid (updateFields b))
      ∧ (updateFields b ≠ [] →
          (updateUser env faults st uid (some b)).trace
            = [⟨StoreCall.userFindByIdAndUpdate uid (updateFields b), (faults 0).isNone⟩])
      ∧ (updateFields b = [] → (updateUser env faults st uid (some b)).trace = [])
      ∧ updateFields escalationBody = [("name", JsVal.str "X")]
      ∧ (∀ u, st.users uid = some u → updateFields b ≠ [] → faults 0 = none →
          (updateUser env faults st uid (some b)).outcome
              = .responded (updatedResponse (applyFields u (updateFields b)))
            ∧ (updateUser env faults st uid (some b)).store.users uid
              = some (applyFields u (updateFields b))
            ∧ (applyFields u (updateFields b)).name
              = (if prop b "name" ≠ JsVal.undefined then prop b "name" else u.name)
            ∧ (applyFields u (updateFields b)).tel
              = (if prop b "tel" ≠ JsVal.undefined then prop b "tel" else u.tel))
      ∧ (∀ u, st.users uid = some u →
          ∃ u1, (updateUser env faults st uid (some b)).store.users uid = some u1
            ∧ u1._id = u._id ∧ u1.email = u.email ∧ u1.role = u.role
            ∧ u1.password = u.password)
      ∧ (∀ other, other ≠ uid →
          (updateUser env faults st uid (some b)).store.users other = st.users other) := by
  have hkeys : ∀ kv ∈ updateFields b, kv.1 = "name" ∨ kv.1 = "tel" :=
    fun kv h => (mem_updateFields b kv h).1
  have htrace : updateFields b ≠ [] →
      (updateUser env faults st uid (some b)).trace
        = [⟨StoreCall.userFindByIdAndUpdate uid (updateFields b), (faults 0).isNone⟩] := by
    intro hne
    unfold updateUser
    simp only [destructure, List.length_eq_zero, hne, if_false]
    cases hf : faults 0 with
    | some e => rfl
    | none => cases hu : st.users uid <;> rfl
  have hnone : updateFields b = [] →
      (updateUser env faults st uid (some b)).trace = [] := by
    intro he
    unfold updateUser
    simp [destructure, he]
  refine ⟨fun kv h => ⟨(mem_updateFields b kv h).1, (mem_updateFields b kv h).2.1⟩, ?_, ?_,
    htrace, hnone, by decide, ?_, ?_, ?_⟩
  · intro key hkey hdef
    rw [updateFields_eq]
    rcases hkey with rfl | rfl
    · simp [hdef]
    · simp [hdef]
  · intro l hl
    by_cases he : updateFields b = []
    · rw [hnone he] at hl
      cases hl
    · rw [htrace he] at hl
      simp at hl
      rw [hl]
  · intro u hu hne hf
    refine ⟨?_, ?_, (applyFields_updateFields u b).1, (applyFields_updateFields u b).2⟩
    · unfold updateUser
      simp [destructure, hne, hf, hu, updatedResponse]
    · unfold updateUser
      simp [destructure, hne, hf, hu]
  · intro u hu
    unfold updateUser
    simp only [destructure]
    split
    · exact ⟨u, hu, rfl, rfl, rfl, rfl⟩
    · split
      · exact ⟨u, hu, rfl, rfl, rfl, rfl⟩
      · split
        · rename_i h; rw [hu] at h; cases h
        · rename_i u0 h
          rw [hu] at h
          cases h
          exact ⟨applyFields u (updateFields b), by simp, applyFields_frame _ hkeys u⟩
  · intro other hne
    unfold updateUser
    simp only [destructure]
    split
    · rfl
    · split
      · rfl
      · split
        · rfl
        · simp [Function.update, hne]

/-- C3 instantiated: `alice` sends `name = X, role = admin, email = new@x.com`; the one
store call carries `name = X` only and the stored user is `alice` renamed. -/
theorem updateUser_allow_list_witness :
    (sampleStore.users 1 = some alice ∧ updateFields escalationBody ≠ []
        ∧ noFaults 0 = none)
      ∧ (updateUser prodEnv noFaults sampleStore 1 (some escalationBody)).trace
          = [⟨StoreCall.userFindByIdAndUpdate 1 [("name", JsVal.str "X")], true⟩]
      ∧ (updateUser prodEnv noFaults sampleStore 1 (some escalationBody)).outcome
          = .responded (updatedResponse { alice with name := JsVal.str "X" })
      ∧ (updateUser prodEnv noFaults sampleStore 1 (some escalationBody)).store.users 1
          = some { alice with name := JsVal.str "X" } := by
  have h := updateUser_allow_list prodEnv noFaults sampleStore 1 escalationBody
  have hu : sampleStore.users 1 = some alice := by decide
  have hne : updateFields escalationBody ≠ [] := by decide
  have h7 := h.2.2.2.2.2.2.1 alice hu hne rfl
  have heq : applyFields alice (updateFields escalationBody)
      = { alice with name := JsVal.str "X" } := by decide
  rw [heq] at h7
  exact ⟨⟨hu, hne, rfl⟩, (h.2.2.2.1 hne).trans (by decide), h7.1, h7.2.1⟩

/-- C6: when the body supplies neither `name` nor `tel`, whatever else it holds,
`updateUser` answers 400 with the message `Please provide name or tel to update`, issues
no store call and leaves the stores as they were. -/
theorem updateUser_rejects_empty (env : Env) (faults : Faults) (st : Store) (uid : Nat)
    (b : ReqBody) (hname : prop b "name" = JsVal.undefined)
    (htel : prop b "tel" = JsVal.undefined) :
    (updateUser env faults st uid (some b)).outcome
        = .responded { status := 400
                       body := { success := false
                                 message := some "Please provide name or tel to update" } }
      ∧ (updateUser env faults st uid (some b)).trace = []
      ∧ (updateUser env faults st uid (some b)).store = st := by
  have hfields : updateFields b = [] := by
    rw [updateFields_eq]
    simp [hname, htel]
  unfold updateUser
  simp only [destructure, hfields, List.length_nil]
  exact ⟨rfl, rfl, rfl⟩

/-- C6 instantiated: a body holding only `role` and `email`, even with a failing store. -/
theorem updateUser_rejects_empty_witness :
    (prop [("role", .str "admin"), ("email", .str "new@x.com")] "name" = JsVal.undefined
        ∧ prop [("role", .str "admin"), ("email", .str "new@x.com")] "tel" = JsVal.undefined)
      ∧ (updateUser devEnv (fun _ => some "down") sampleStore 1
            (some [("role", .str "admin"), ("email", .str "new@x.com")])).outcome
          = .responded { status := 400
                         body := { success := false
                                   message := some "Please provide name or tel to update" } }
      ∧ (updateUser devEnv (fun _ => some "down") sampleStore 1
            (some [("role", .str "admin"), ("email", .str "new@x.com")])).trace = []
      ∧ (updateUser devEnv (fun _ => some "down") sampleStore 1
            (some [("role", .str "admin"), ("email", .str "new@x.com")])).store = sampleStore :=
  ⟨⟨by decide, by decide⟩,
    updateUser_rejects_empty devEnv (fun _ => some "down") sampleStore 1
      [("role", .str "admin"), ("email", .str "new@x.com")] (by decide) (by decide)⟩

/-! ## The restoration loop -/

theorem roundToDouble_safe (x : Int) (h : x.natAbs ≤ 2 ^ 53) : roundToDouble x = JsNum.int x := by
  unfold roundToDouble
  exact if_pos h

theorem creditAll_cons (t : Ticketing) (ts : List Ticketing) (ev : Event) :
    creditAll (t :: ts) ev = creditAll ts (credited t.ticketAmount ev) := rfl

theorem onEvent_cons (t : Ticketing) (ts : List Ticketing) (eid : Nat) :
    onEvent (t :: ts) eid = if t.event = eid then t :: onEvent ts eid else onEvent ts eid := by
  unfold onEvent
  by_cases h : t.event = eid <;> simp [List.filter_cons, h]

theorem onEvent_filter_user (ts : List Ticketing) (uid eid : Nat) :
    onEvent (ts.filter (fun t => t.user = uid)) eid = reservationsOn ts uid eid := by
  unfold onEvent reservationsOn
  rw [List.filter_filter]
  apply List.filter_congr
  intro t _
  by_cases h1 : t.user = uid <;> by_cases h2 : t.event = eid <;> simp [h1, h2]

/-- Within the range where doubles hold every whole number, crediting a list of whole
ticket counts adds their sum. -/
theorem creditAll_exact (ts : List Ticketing) (ev : Event) (a : Int)
    (ha : ev.availableTicket = JsNum.int a)
    (hint : ∀ t ∈ ts, t.ticketAmount.isInt = true)
    (hsafe : a.natAbs + (ts.map (fun t => t.ticketAmount.toInt.natAbs)).sum ≤ 2 ^ 53) :
    creditAll ts ev
      = { ev with availableTicket :=
            JsNum.int (a + (ts.map (fun t => t.ticketAmount.toInt)).sum) } := by
  induction ts generalizing ev a with
  | nil =>
    obtain ⟨name, avail⟩ := ev
    simp only at ha
    subst ha
    simp [creditAll]
  | cons t rest ih =>
    have ht := hint t (List.mem_cons_self _ _)
    cases hq : t.ticketAmount with
    | inf s => rw [hq] at ht; cases ht
    | nan => rw [hq] at ht; cases ht
    | int q =>
      have hq1 : t.ticketAmount.toInt = q := by rw [hq]; rfl
      simp only [List.map_cons, List.sum_cons, hq1] at hsafe ⊢
      have hstep : (a + q).natAbs ≤ 2 ^ 53 := by
        have := Int.natAbs_add_le a q
        omega
      have hcred : (credited t.ticketAmount ev).availableTicket = JsNum.int (a + q) := by
        simp [credited, ha, hq, JsNum.add, roundToDouble_safe _ hstep]
      rw [creditAll_cons, ih (credited t.ticketAmount ev) (a + q) hcred
        (fun x hx => hint x (List.mem_cons_of_mem _ hx))
        (by have := Int.natAbs_add_le a q; omega)]
      simp [credited, add_assoc]

theorem restoreTickets_skip (faults : Faults) (t : Ticketing) (rest : List Ticketing)
    (st : Store) (tr : List Logged) (hf : faults tr.length = none)
    (hev : st.events t.event = none) :
    restoreTickets faults (t :: rest) st tr
      = restoreTickets faults rest st (tr ++ [⟨.eventFindById t.event, true⟩]) := by
  simp [restoreTickets, hf, hev]

theorem restoreTickets_save (faults : Faults) (t : Ticketing) (rest : List Ticketing)
    (st : Store) (tr : List Logged) (ev : Event) (hf : faults tr.length = none)
    (hev : st.events t.event = some ev) (hf2 : faults (tr.length + 1) = none) :
    restoreTickets faults (t :: rest) st tr
      = restoreTickets faults rest (creditEvent st t ev) (tr ++ savedEntries t ev true) := by
  simp [restoreTickets, hf, hev, hf2, creditEvent, credited, savedEntries]

/-- With no rejected call the loop runs to its end and every existing event is credited,
one after the other, with the reservations of the list that reference it; absent events
stay absent. -/
theorem restoreTickets_noFaults (ts : List Ticketing) (st : Store) (tr : List Logged) :
    (restoreTickets noFaults ts st tr).2.2 = none
      ∧ ∀ eid, (restoreTickets noFaults ts st tr).1.events eid
          = (st.events eid).map (creditAll (onEvent ts eid)) := by
  induction ts generalizing st tr with
  | nil =>
    refine ⟨rfl, fun eid => ?_⟩
    cases h : st.events eid <;> simp [restoreTickets, h, onEvent, creditAll]
  | cons t rest ih =>
    cases hev : st.events t.event with
    | none =>
      rw [restoreTickets_skip noFaults t rest st tr rfl hev]
      refine ⟨(ih st _).1, fun eid => ?_⟩
      rw [(ih st _).2 eid, onEvent_cons]
      by_cases h : t.event = eid
      · subst h; simp [hev]
      · simp [h]
    | some ev =>
      rw [restoreTickets_save noFaults t rest st tr ev rfl hev rfl]
      refine ⟨(ih _ _).1, fun eid => ?_⟩
      rw [(ih _ _).2 eid, onEvent_cons]
      by_cases h : t.event = eid
      · subst h
        simp [creditEvent, hev, creditAll_cons]
      · have h2 : eid ≠ t.event := fun e => h e.symm
        simp [creditEvent, h, Function.update_noteq h2]

/-- Whatever the fault plan, the loop touches neither users nor reservations, only appends
event-store calls to the log, and logs no rejected call unless it is interrupted. -/
theorem restoreTickets_frame (faults : Faults) (ts : List Ticketing) (st : Store)
    (tr : List Logged) :
    (restoreTickets faults ts st tr).1.users = st.users
      ∧ (restoreTickets faults ts st tr).1.ticketings = st.ticketings
      ∧ ∃ ext, (restoreTickets faults ts st tr).2.1 = tr ++ ext
          ∧ (∀ l ∈ ext, l.call.isEventCall = true)
          ∧ ((restoreTickets faults ts st tr).2.2 = none → ∀ l ∈ ext, l.ok = true) := by
  induction ts generalizing st tr with
  | nil => exact ⟨rfl, rfl, [], by simp [restoreTickets], by simp, by simp⟩
  | cons t rest ih =>
    cases hf : faults tr.length with
    | some e =>
      refine ⟨by simp [restoreTickets, hf], by simp [restoreTickets, hf],
        [⟨.eventFindById t.event, false⟩], by simp [restoreTickets, hf], ?_, ?_⟩
      · simp [StoreCall.isEventCall]
      · simp [restoreTickets, hf]
    | none =>
      cases hev : st.events t.event with
      | none =>
        rw [restoreTickets_skip faults t rest st tr hf hev]
        obtain ⟨h1, h2, ext, h3, h4, h5⟩ := ih st (tr ++ [⟨.eventFindById t.event, true⟩])
        refine ⟨h1, h2, ⟨.eventFindById t.event, true⟩ :: ext, by simp [h3], ?_, ?_⟩
        · intro l hl
          rcases List.mem_cons.mp hl with rfl | hl
          · rfl
          · exact h4 l hl
        · intro hn l hl
          rcases List.mem_cons.mp hl with rfl | hl
          · rfl
          · exact h5 hn l hl
      | some ev =>
        cases hf2 : faults (tr.length + 1) with
        | some e =>
          refine ⟨by simp [restoreTickets, hf, hev, hf2], by simp [restoreTickets, hf, hev, hf2],
            savedEntries t ev false,
            by simp [restoreTickets, hf, hev, hf2, savedEntries, credited], ?_, ?_⟩
          · simp [StoreCall.isEventCall, savedEntries]
          · simp [restoreTickets, hf, hev, hf2]
        | none =>
          rw [restoreTickets_save faults t rest st tr ev hf hev hf2]
          obtain ⟨h1, h2, ext, h3, h4, h5⟩ :=
            ih (creditEvent st t ev) (tr ++ savedEntries t ev true)
          refine ⟨h1, h2, savedEntries t ev true ++ ext, by simp [h3], ?_, ?_⟩
          · intro l hl
            rcases List.mem_append.mp hl with hl | hl
            · simp [savedEntries] at hl
              rcases hl with rfl | rfl <;> rfl
            · exact h4 l hl
          · intro hn l hl
            rcases List.mem_append.mp hl with hl | hl
            · simp [savedEntries] at hl
              rcases hl with rfl | rfl <;> rfl
            · exact h5 hn l hl

/-! ## deleteUser -/

theorem noFaults_apply (n : Nat) : noFaults n = none := rfl

/-- The run of `deleteUser` when the user exists and no store call is rejected. -/
theorem deleteUser_success (env : Env) (faults : Faults) (st : Store) (uid : Nat) (u : UserDoc)
    (hok : ∀ n, faults n = none) (hu : st.users uid = some u) :
    (deleteUser env faults st uid).outcome = .responded deletedResponse
      ∧ (deleteUser env faults st uid).store.users = Function.update st.users uid none
      ∧ (deleteUser env faults st uid).store.ticketings
          = st.ticketings.filter (fun t => ¬ t.user = uid)
      ∧ ∀ eid, (deleteUser env faults st uid).store.events eid
          = (st.events eid).map (creditAll (reservationsOn st.ticketings uid eid)) := by
  have hfa : faults = noFaults := funext hok
  subst hfa
  have key := restoreTickets_noFaults (st.ticketings.filter (fun t => t.user = uid)) st
    ([⟨.userFindById uid, true⟩] ++ [⟨.ticketingFind uid, true⟩])
  have frame := restoreTickets_frame noFaults (st.ticketings.filter (fun t => t.user = uid)) st
    ([⟨.userFindById uid, true⟩] ++ [⟨.ticketingFind uid, true⟩])
  unfold deleteUser
  simp only [noFaults_apply, hu]
  generalize restoreTickets noFaults (st.ticketings.filter (fun t => t.user = uid)) st
    ([⟨.userFindById uid, true⟩] ++ [⟨.ticketingFind uid, true⟩]) = r at key frame ⊢
  obtain ⟨st2, tr2, o⟩ := r
  obtain ⟨ho, hev⟩ := key
  obtain ⟨hus, hts, -⟩ := frame
  simp only at ho hev hus hts
  subst ho
  simp only [hus, hts]
  refine ⟨rfl, trivial, trivial, fun eid => ?_⟩
  rw [hev eid, onEvent_filter_user]

/-- The possible runs of `deleteUser`, by the place where the first rejected call (if any)
occurs: the log, the status of the answer and the effect on the user collection. -/
theorem deleteUser_shape (env : Env) (faults : Faults) (st : Store) (uid : Nat) :
    ((deleteUser env faults st uid).trace = [⟨.userFindById uid, false⟩]
        ∧ (deleteUser env faults st uid).outcome.status = some 500
        ∧ (deleteUser env faults st uid).store.users = st.users)
    ∨ (faults 0 = none ∧ st.users uid = none
        ∧ (deleteUser env faults st uid).trace = [⟨.userFindById uid, true⟩]
        ∧ (deleteUser env faults st uid).outcome.status = some 404
        ∧ (deleteUser env faults st uid).store = st)
    ∨ ((deleteUser env faults st uid).trace
          = [⟨.userFindById uid, true⟩, ⟨.ticketingFind uid, false⟩]
        ∧ (deleteUser env faults st uid).outcome.status = some 500
        ∧ (deleteUser env faults st uid).store.users = st.users)
    ∨ (∃ ext, (deleteUser env faults st uid).trace
          = [⟨.userFindById uid, true⟩, ⟨.ticketingFind uid, true⟩] ++ ext
        ∧ (∀ l ∈ ext, l.call.isEventCall = true)
        ∧ (deleteUser env faults st uid).outcome.status = some 500
        ∧ (deleteUser env faults st uid).store.users = st.users)
    ∨ (∃ ext, (deleteUser env faults st uid).trace
          = [⟨.userFindById uid, true⟩, ⟨.ticketingFind uid, true⟩] ++ ext
              ++ [⟨.ticketingDeleteMany uid, false⟩]
        ∧ (∀ l ∈ ext, l.call.isEventCall = true)
        ∧ (deleteUser env faults st uid).outcome.status = some 500
        ∧ (deleteUser env faults st uid).store.users = st.users)
    ∨ (∃ ext, (deleteUser env faults st uid).trace
          = [⟨.userFindById uid, true⟩, ⟨.ticketingFind uid, true⟩] ++ ext
              ++ [⟨.ticketingDeleteMany uid, true⟩, ⟨.userFindByIdAndDelete uid, false⟩]
        ∧ (∀ l ∈ ext, l.call.isEventCall = true ∧ l.ok = true)
        ∧ (deleteUser env faults st uid).outcome.status = some 500
        ∧ (deleteUser env faults st uid).store.users = st.users)
    ∨ (∃ ext, (deleteUser env faults st uid).trace
          = [⟨.userFindById uid, true⟩, ⟨.ticketingFind uid, true⟩] ++ ext
              ++ [⟨.ticketingDeleteMany uid, true⟩, ⟨.userFindByIdAndDelete uid, true⟩]
        ∧ (∀ l ∈ ext, l.call.isEventCall = true ∧ l.ok = true)
        ∧ (deleteUser env faults st uid).outcome.status = some 200
        ∧ (deleteUser env faults st uid).store.users = Function.update st.users uid none) := by
  have frame := restoreTickets_frame faults (st.ticketings.filter (fun t => t.user = uid)) st
    ([⟨.userFindById uid, true⟩] ++ [⟨.ticketingFind uid, true⟩])
  unfold deleteUser
  cases h0 : faults 0 with
  | some e => left; exact ⟨rfl, rfl, rfl⟩
  | none =>
    cases hu : st.users uid with
    | none => right; left; exact ⟨rfl, rfl, rfl, rfl, rfl⟩
    | some u =>
      cases h1 : faults 1 with
      | some e =>
        right; right; left
        simp [h1, Handled.status, serverError]
      | none =>
        right; right; right
        simp only [List.length_singleton, h1]
        generalize restoreTickets faults (st.ticketings.filter (fun t => t.user = uid)) st
          ([⟨.userFindById uid, true⟩] ++ [⟨.ticketingFind uid, true⟩]) = r at frame ⊢
        obtain ⟨st2, tr2, o⟩ := r
        obtain ⟨hus, -, ext, htr, hcalls, hoks⟩ := frame
        simp only at hus htr hoks
        subst htr
        cases o with
        | some e =>
          left
          exact ⟨ext, by simp, hcalls, rfl, hus⟩
        | none =>
          have hoks1 := hoks rfl
          simp only
          split
          · right; left
            exact ⟨ext, by simp, hcalls, rfl, hus⟩
          · split
            · right; right; left
              exact ⟨ext, by simp, fun l hl => ⟨hcalls l hl, hoks1 l hl⟩, rfl, hus⟩
            · right; right; right
              refine ⟨ext, by simp, fun l hl => ⟨hcalls l hl, hoks1 l hl⟩, rfl, ?_⟩
              simp only [hus]

theorem mem_filter_not_user (ts : List Ticketing) (uid : Nat) (t : Ticketing) :
    t ∈ ts.filter (fun x => ¬ x.user = uid) ↔ t ∈ ts ∧ t.user ≠ uid := by
  simp [List.mem_filter]

theorem reservationsOn_without_event (ts : List Ticketing) (uid eid gone : Nat)
    (h : eid ≠ gone) :
    reservationsOn (ts.filter (fun x => ¬ x.event = gone)) uid eid
      = reservationsOn ts uid eid := by
  unfold reservationsOn
  rw [List.filter_filter]
  apply List.filter_congr
  intro t _
  by_cases h1 : t.user = uid <;> by_cases h2 : t.event = eid <;> simp [h1, h2]
  intro h3
  exact h h3

/-- The stored value of an event whose stock and reserved ticket counts are whole numbers
within the range where double addition is exact. -/
theorem creditAll_reservations (ts : List Ticketing) (uid eid : Nat) (ev : Event) (a : Int)
    (ha : ev.availableTicket = JsNum.int a)
    (hint : ∀ t ∈ reservationsOn ts uid eid, t.ticketAmount.isInt = true)
    (hsafe : a.natAbs + reservedMagnitude ts uid eid ≤ 2 ^ 53) :
    creditAll (reservationsOn ts uid eid) ev
      = { ev with availableTicket := JsNum.int (a + reservedOn ts uid eid) } :=
  creditAll_exact (reservationsOn ts uid eid) ev a ha hint hsafe

/-- C1 as stated fails: `alice` exists and holds one ticket on event 100, whose stock is
`2 ^ 53`; every store call succeeds and `deleteUser` answers 200, yet the stock saved is
still `2 ^ 53`, not `2 ^ 53 + 1`, because the double sum rounds back. -/
theorem deleteUser_credit_rounded_away :
    fullStore.users 1 = some alice
      ∧ fullStore.events 100 = some { name := "Concert", availableTicket := .int 9007199254740992 }
      ∧ reservedOn fullStore.ticketings 1 100 = 1
      ∧ (deleteUser devEnv noFaults fullStore 1).outcome.status = some 200
      ∧ (deleteUser devEnv noFaults fullStore 1).store.events 100
          = some { name := "Concert", availableTicket := .int 9007199254740992 }
      ∧ (deleteUser devEnv noFaults fullStore 1).store.events 100
          ≠ some { name := "Concert"
                   availableTicket :=
                    .int (9007199254740992 + reservedOn fullStore.ticketings 1 100) } := by
  refine ⟨by decide, by decide, by decide, by decide, by decide, by decide⟩

/-- C1 amended: when the authenticated user exists and every store call succeeds,
`deleteUser` answers 200 and afterwards every event that existed, whose `availableTicket`
and the user's `ticketAmount`s on it are whole numbers with the magnitude of the first plus
the magnitudes of the others at most `2 ^ 53` (where the addition of JavaScript numbers is
exact), has its `availableTicket` raised by the sum of `ticketAmount` over the reservations
of that user referencing it (its other fields are untouched); an event that none of the
user's reservations reference is unchanged and no event appears; no reservation of the
user remains, the reservations of other users are exactly the ones there were, the user
record is gone and the other user records are unchanged. -/
theorem deleteUser_restores_inventory (env : Env) (faults : Faults) (st : Store) (uid : Nat)
    (u : UserDoc) (hok : ∀ n, faults n = none) (hu : st.users uid = some u) :
    (deleteUser env faults st uid).outcome.status = some 200
      ∧ (∀ eid ev a, st.events eid = some ev → ev.availableTicket = JsNum.int a →
          (∀ t ∈ reservationsOn st.ticketings uid eid, t.ticketAmount.isInt = true) →
          a.natAbs + reservedMagnitude st.ticketings uid eid ≤ 2 ^ 53 →
          ∃ ev1, (deleteUser env faults st uid).store.events eid = some ev1
            ∧ ev1.availableTicket = JsNum.int (a + reservedOn st.ticketings uid eid)
            ∧ ev1.name = ev.name)
      ∧ (∀ eid ev, st.events eid = some ev → reservationsOn st.ticketings uid eid = [] →
          (deleteUser env faults st uid).store.events eid = some ev)
      ∧ (∀ eid, st.events eid = none → (deleteUser env faults st uid).store.events eid = none)
      ∧ (∀ t ∈ (deleteUser env faults st uid).store.ticketings, t.user ≠ uid)
      ∧ (deleteUser env faults st uid).store.ticketings
          = st.ticketings.filter (fun t => ¬ t.user = uid)
      ∧ (∀ t ∈ st.ticketings, t.user ≠ uid → t ∈ (deleteUser env faults st uid).store.ticketings)
      ∧ (deleteUser env faults st uid).store.users uid = none
      ∧ (∀ other, other ≠ uid →
          (deleteUser env faults st uid).store.users other = st.users other) := by
  obtain ⟨hres, husers, hts, hev⟩ := deleteUser_success env faults st uid u hok hu
  refine ⟨by rw [hres]; rfl, ?_, ?_, ?_, ?_, hts, ?_, ?_, ?_⟩
  · intro eid ev a h ha hint hsafe
    refine ⟨{ ev with availableTicket := JsNum.int (a + reservedOn st.ticketings uid eid) },
      ?_, rfl, rfl⟩
    rw [hev eid, h, Option.map_some', creditAll_reservations _ _ _ _ _ ha hint hsafe]
  · intro eid ev h hnone
    rw [hev eid, h, hnone]
    rfl
  · intro eid h
    rw [hev eid, h]; rfl
  · intro t ht
    rw [hts] at ht
    exact ((mem_filter_not_user _ _ _).mp ht).2
  · intro t ht hne
    rw [hts]
    exact (mem_filter_not_user _ _ _).mpr ⟨ht, hne⟩
  · rw [husers]; simp
  · intro other hne
    rw [husers]; simp [Function.update, hne]

/-- C1 amended, instantiated: deleting `alice`, who holds 3 and 2 tickets on event 100
(stock 50) and none on event 101 (stock 20). -/
theorem deleteUser_restores_inventory_witness :
    ((∀ n, noFaults n = none) ∧ sampleStore.users 1 = some alice
        ∧ sampleStore.events 100 = some { name := "Concert", availableTicket := .int 50 }
        ∧ (∀ t ∈ reservationsOn sampleStore.ticketings 1 100, t.ticketAmount.isInt = true)
        ∧ (50 : Int).natAbs + reservedMagnitude sampleStore.ticketings 1 100 ≤ 2 ^ 53
        ∧ sampleStore.events 101 = some { name := "Expo", availableTicket := .int 20 }
        ∧ reservationsOn sampleStore.ticketings 1 101 = [])
      ∧ reservedOn sampleStore.ticketings 1 100 = 5
      ∧ (∃ ev1, (deleteUser devEnv noFaults sampleStore 1).store.events 100 = some ev1
          ∧ ev1.availableTicket = JsNum.int (50 + reservedOn sampleStore.ticketings 1 100)
          ∧ ev1.name = "Concert")
      ∧ (deleteUser devEnv noFaults sampleStore 1).store.events 100
          = some { name := "Concert", availableTicket := .int 55 }
      ∧ (deleteUser devEnv noFaults sampleStore 1).store.events 101
          = some { name := "Expo", availableTicket := .int 20 }
      ∧ (deleteUser devEnv noFaults sampleStore 1).outcome.status = some 200
      ∧ (deleteUser devEnv noFaults sampleStore 1).store.ticketings
          = [ { _id := 12, user := 2, event := 100, ticketAmount := .int 4 },
              { _id := 14, user := 2, event := 101, ticketAmount := .int 1 } ]
      ∧ (deleteUser devEnv noFaults sampleStore 1).store.users 1 = none := by
  have h := deleteUser_restores_inventory devEnv noFaults sampleStore 1 alice
    (fun _ => rfl) (by decide)
  have hint : ∀ t ∈ reservationsOn sampleStore.ticketings 1 100, t.ticketAmount.isInt = true := by
    decide
  have hsafe : (50 : Int).natAbs + reservedMagnitude sampleStore.ticketings 1 100 ≤ 2 ^ 53 := by
    decide
  refine ⟨⟨fun _ => rfl, by decide, by decide, hint, hsafe, by decide, by decide⟩, by decide,
    h.2.1 100 { name := "Concert", availableTicket := .int 50 } 50 (by decide) rfl hint hsafe,
    by decide,
    h.2.2.1 101 { name := "Expo", availableTicket := .int 20 } (by decide) (by decide), h.1, ?_,
    h.2.2.2.2.2.2.2.1⟩
  rw [h.2.2.2.2.2.1]
  decide

/-- C2 as stated fails: `alice` owns a reservation on the absent event 999 and one ticket
on event 100, whose stock is `2 ^ 53`; `deleteUser` answers 200 and removes both, but the
stock of event 100 does not change by the one ticket her reservation on it holds. -/
theorem deleteUser_orphan_credit_rounded_away :
    fullStore.users 1 = some alice
      ∧ ({ _id := 13, user := 1, event := 999, ticketAmount := .int 7 } : Ticketing)
          ∈ fullStore.ticketings
      ∧ fullStore.events 999 = none
      ∧ fullStore.events 100 = some { name := "Concert", availableTicket := .int 9007199254740992 }
      ∧ reservedOn fullStore.ticketings 1 100 = 1
      ∧ (deleteUser prodEnv noFaults fullStore 1).outcome.status = some 200
      ∧ (deleteUser prodEnv noFaults fullStore 1).store.ticketings = []
      ∧ (deleteUser prodEnv noFaults fullStore 1).store.events 100
          = some { name := "Concert", availableTicket := .int (9007199254740992 + 0) }
      ∧ (deleteUser prodEnv noFaults fullStore 1).store.events 100
          ≠ some { name := "Concert"
                   availableTicket :=
                    .int (9007199254740992 + reservedOn fullStore.ticketings 1 100) } := by
  refine ⟨by decide, by decide, by decide, by decide, by decide, by decide, by decide,
    by decide, by decide⟩

/-- C2 amended: when the authenticated user exists, owns a reservation `t` whose event is
absent from the event store, and every store call succeeds, `deleteUser` answers 200,
removes `t` with all other reservations of the user and the user record, creates no event
for `t`, and credits no event on account of the reservations on the absent event: every
existing event ends with the value obtained by adding to it, one after the other, the
quantities of the user's other reservations that reference it, which is its previous value
plus the sum of the user's reservations referencing it whenever these are whole numbers
whose magnitudes add up to at most `2 ^ 53`. -/
theorem deleteUser_tolerates_orphan (env : Env) (faults : Faults) (st : Store) (uid : Nat)
    (u : UserDoc) (t : Ticketing) (hok : ∀ n, faults n = none) (hu : st.users uid = some u)
    (ht : t ∈ st.ticketings) (hown : t.user = uid) (horphan : st.events t.event = none) :
    (deleteUser env faults st uid).outcome.status = some 200
      ∧ t ∉ (deleteUser env faults st uid).store.ticketings
      ∧ (deleteUser env faults st uid).store.ticketings.length < st.ticketings.length
      ∧ (∀ x ∈ (deleteUser env faults st uid).store.ticketings, x.user ≠ uid)
      ∧ (deleteUser env faults st uid).store.users uid = none
      ∧ (deleteUser env faults st uid).store.events t.event = none
      ∧ (∀ eid ev, st.events eid = some ev →
          (deleteUser env faults st uid).store.events eid
            = some (creditAll
                (reservationsOn (st.ticketings.filter (fun x => ¬ x.event = t.event)) uid eid)
                ev))
      ∧ (∀ eid ev a, st.events eid = some ev → ev.availableTicket = JsNum.int a →
          (∀ x ∈ reservationsOn st.ticketings uid eid, x.ticketAmount.isInt = true) →
          a.natAbs + reservedMagnitude st.ticketings uid eid ≤ 2 ^ 53 →
          ∃ ev1, (deleteUser env faults st uid).store.events eid = some ev1
            ∧ ev1.availableTicket = JsNum.int (a + reservedOn st.ticketings uid eid)
            ∧ reservedOn st.ticketings uid eid
                = reservedOn (st.ticketings.filter (fun x => ¬ x.event = t.event)) uid eid) := by
  obtain ⟨hres, husers, hts, hev⟩ := deleteUser_success env faults st uid u hok hu
  have hne : ∀ eid ev, st.events eid = some ev → eid ≠ t.event := by
    intro eid ev h e
    rw [e, horphan] at h
    cases h
  refine ⟨by rw [hres]; rfl, ?_, ?_, ?_, ?_, ?_, ?_, ?_⟩
  · intro hmem
    rw [hts] at hmem
    exact ((mem_filter_not_user _ _ _).mp hmem).2 hown
  · rw [hts]
    exact List.length_filter_lt_length_iff_exists.mpr ⟨t, ht, by simp [hown]⟩
  · intro x hx
    rw [hts] at hx
    exact ((mem_filter_not_user _ _ _).mp hx).2
  · rw [husers]; simp
  · rw [hev t.event, horphan]; rfl
  · intro eid ev h
    rw [hev eid, h, reservationsOn_without_event _ _ _ _ (hne eid ev h)]
    rfl
  · intro eid ev a h ha hint hsafe
    refine ⟨{ ev with availableTicket := JsNum.int (a + reservedOn st.ticketings uid eid) },
      ?_, rfl, ?_⟩
    · rw [hev eid, h, Option.map_some', creditAll_reservations _ _ _ _ _ ha hint hsafe]
    · unfold reservedOn
      rw [reservationsOn_without_event _ _ _ _ (hne eid ev h)]

/-- C2 amended, instantiated: reservation 13 of `alice` references the deleted event 999. -/
theorem deleteUser_tolerates_orphan_witness :
    ((∀ n, noFaults n = none) ∧ sampleStore.users 1 = some alice
        ∧ ({ _id := 13, user := 1, event := 999, ticketAmount := .int 7 } : Ticketing)
            ∈ sampleStore.ticketings
        ∧ sampleStore.events 999 = none
        ∧ sampleStore.events 100 = some { name := "Concert", availableTicket := .int 50 }
        ∧ (∀ x ∈ reservationsOn sampleStore.ticketings 1 100, x.ticketAmount.isInt = true)
        ∧ (50 : Int).natAbs + reservedMagnitude sampleStore.ticketings 1 100 ≤ 2 ^ 53)
      ∧ (deleteUser prodEnv noFaults sampleStore 1).outcome.status = some 200
      ∧ ({ _id := 13, user := 1, event := 999, ticketAmount := .int 7 } : Ticketing)
          ∉ (deleteUser prodEnv noFaults sampleStore 1).store.ticketings
      ∧ (deleteUser prodEnv noFaults sampleStore 1).store.events 999 = none
      ∧ (∃ ev1, (deleteUser prodEnv noFaults sampleStore 1).store.events 100 = some ev1
          ∧ ev1.availableTicket = JsNum.int (50 + reservedOn sampleStore.ticketings 1 100)
          ∧ reservedOn sampleStore.ticketings 1 100
              = reservedOn (sampleStore.ticketings.filter (fun x => ¬ x.event = 999)) 1 100)
      ∧ (deleteUser prodEnv noFaults sampleStore 1).store.events 100
          = some { name := "Concert", availableTicket := .int 55 } := by
  have hint : ∀ x ∈ reservationsOn sampleStore.ticketings 1 100, x.ticketAmount.isInt = true := by
    decide
  have hsafe : (50 : Int).natAbs + reservedMagnitude sampleStore.ticketings 1 100 ≤ 2 ^ 53 := by
    decide
  have h := deleteUser_tolerates_orphan prodEnv noFaults sampleStore 1 alice
    { _id := 13, user := 1, event := 999, ticketAmount := .int 7 } (fun _ => rfl) (by decide)
    (by decide) rfl (by decide)
  exact ⟨⟨fun _ => rfl, by decide, by decide, by decide, by decide, hint, hsafe⟩, h.1, h.2.1,
    h.2.2.2.2.2.1,
    h.2.2.2.2.2.2.2 100 { name := "Concert", availableTicket := .int 50 } 50 (by decide) rfl
      hint hsafe,
    by decide⟩

/-- C7 fails on `getMe`: with the store rejecting `User.findById`, the rejection escapes
`getMe` and no response is produced, whereas `updateUser` and `deleteUser` answer 500 and
`register` and `login` answer 400 and 401 when their store call is rejected. -/
theorem getMe_rejection_escapes :
    (getMe storeDown sampleStore 1).outcome = Handled.uncaught "connection lost"
      ∧ (getMe storeDown sampleStore 1).outcome.status = none
      ∧ (getMe storeDown sampleStore 1).trace = [⟨.userFindById 1, false⟩]
      ∧ (updateUser prodEnv storeDown sampleStore 1 (some escalationBody)).outcome.status
          = some 500
      ∧ (deleteUser prodEnv storeDown sampleStore 1).outcome.status = some 500
      ∧ (register prodEnv 0
            { sampleModel with create := fun _ _ _ _ _ => .error "connection lost" }
            (some escalationBody)).status = some 400
      ∧ (login prodEnv 0 { sampleModel with findOne := fun _ => .error "connection lost" }
            (some wrongPasswordBody)).status = some 401 := by
  refine ⟨by decide, by decide, by decide, by decide, by decide, by decide, by decide⟩

/-- Every handler that wraps its body in `try` answers when its store call is rejected:
`register` with 400, `login` with 401, `updateUser` and `deleteUser` with 500. -/
theorem guarded_handlers_answer (env : Env) (now : Int) (User : UserModel) (faults : Faults)
    (st : Store) (uid : Nat) (b : ReqBody) (e : String) :
    (User.create (prop b "name") (prop b "email") (prop b "tel") (prop b "password")
          (prop b "role") = .error e →
        (register env now User (some b)).status = some 400)
      ∧ ((prop b "email").truthy = true → (prop b "password").truthy = true →
          User.findOne (prop b "email") = .error e →
          (login env now User (some b)).status = some 401)
      ∧ (updateFields b ≠ [] → faults 0 = some e →
          (updateUser env faults st uid (some b)).outcome.status = some 500)
      ∧ (∀ l ∈ (deleteUser env faults st uid).trace, l.ok = false →
          (deleteUser env faults st uid).outcome.status = some 500) := by
  refine ⟨?_, ?_, ?_, ?_⟩
  · intro h
    simp [register, tryCatch, destructure, bind, Except.bind, h, Handled.status]
  · intro he hp h
    simp [login, tryCatch, destructure, bind, Except.bind, pure, Except.pure, he, hp, h,
      Handled.status]
  · intro hne h
    simp [updateUser, destructure, hne, h, Handled.status, serverError]
  · intro l hl hfail
    rcases deleteUser_shape env faults st uid with
      ⟨_, h, _⟩ | ⟨_, _, htr, _, _⟩ | ⟨_, h, _⟩ | ⟨_, _, _, h, _⟩ | ⟨_, _, _, h, _⟩
        | ⟨_, _, _, h, _⟩ | ⟨ext, htr, hext, _, _⟩
    · exact h
    · rw [htr] at hl
      simp at hl
      subst hl
      cases hfail
    · exact h
    · exact h
    · exact h
    · exact h
    · rw [htr] at hl
      simp at hl
      rcases hl with rfl | rfl | hl | rfl | rfl
      · cases hfail
      · cases hfail
      · rw [(hext l hl).2] at hfail
        cases hfail
      · cases hfail
      · cases hfail

theorem eventCall_ne_userDelete (l : Logged) (uid : Nat) (h : l.call.isEventCall = true) :
    l.call ≠ StoreCall.userFindByIdAndDelete uid := by
  intro hc
  rw [hc] at h
  cases h

/-- C8: in `deleteUser` the user record is deleted last.  Whatever the stores and the
fault plan: if a store call other than the user deletion is rejected (user lookup,
reservation enumeration, an event lookup, an event save, the bulk reservation delete), the
answer is 500 and the user collection is what it was; a user deletion appears in the call
log only as the last call, directly after a bulk reservation delete that succeeded, with
every earlier call having succeeded; and when the user lookup finds no user the answer is
404, only that lookup was issued and no store is changed. -/
theorem deleteUser_user_deleted_last (env : Env) (faults : Faults) (st : Store) (uid : Nat) :
    (∀ l ∈ (deleteUser env faults st uid).trace, l.ok = false →
        l.call ≠ StoreCall.userFindByIdAndDelete uid →
        (deleteUser env faults st uid).outcome.status = some 500
          ∧ (deleteUser env faults st uid).store.users = st.users)
      ∧ (∀ l ∈ (deleteUser env faults st uid).trace,
          l.call = StoreCall.userFindByIdAndDelete uid →
          ∃ pre, (deleteUser env faults st uid).trace
              = pre ++ [⟨StoreCall.ticketingDeleteMany uid, true⟩, l]
            ∧ ∀ x ∈ pre, x.ok = true ∧ x.call ≠ StoreCall.userFindByIdAndDelete uid)
      ∧ (faults 0 = none → st.users uid = none →
          (deleteUser env faults st uid).outcome.status = some 404
            ∧ (deleteUser env faults st uid).store = st
            ∧ (deleteUser env faults st uid).trace = [⟨StoreCall.userFindById uid, true⟩]) := by
  refine ⟨?_, ?_, ?_⟩
  · intro l hl hfail hcall
    rcases deleteUser_shape env faults st uid with
      ⟨_, h, hus⟩ | ⟨_, _, htr, _, _⟩ | ⟨_, h, hus⟩ | ⟨_, _, _, h, hus⟩ | ⟨_, _, _, h, hus⟩
        | ⟨_, _, _, h, hus⟩ | ⟨ext, htr, hext, _, _⟩
    · exact ⟨h, hus⟩
    · rw [htr] at hl
      simp at hl
      subst hl
      cases hfail
    · exact ⟨h, hus⟩
    · exact ⟨h, hus⟩
    · exact ⟨h, hus⟩
    · exact ⟨h, hus⟩
    · rw [htr] at hl
      simp at hl
      rcases hl with rfl | rfl | hl | rfl | rfl
      · cases hfail
      · cases hfail
      · rw [(hext l hl).2] at hfail
        cases hfail
      · cases hfail
      · cases hfail
  · intro l hl hcall
    rcases deleteUser_shape env faults st uid with
      ⟨htr, _, _⟩ | ⟨_, _, htr, _, _⟩ | ⟨htr, _, _⟩ | ⟨ext, htr, hext, _, _⟩
        | ⟨ext, htr, hext, _, _⟩ | ⟨ext, htr, hext, _, _⟩ | ⟨ext, htr, hext, _, _⟩
    · rw [htr] at hl
      simp at hl
      subst hl
      cases hcall
    · rw [htr] at hl
      simp at hl
      subst hl
      cases hcall
    · rw [htr] at hl
      simp at hl
      rcases hl with rfl | rfl
      · cases hcall
      · cases hcall
    · rw [htr] at hl
      simp at hl
      rcases hl with rfl | rfl | hl
      · cases hcall
      · cases hcall
      · exact absurd hcall (eventCall_ne_userDelete l uid (hext l hl))
    · rw [htr] at hl
      simp at hl
      rcases hl with rfl | rfl | hl | rfl
      · cases hcall
      · cases hcall
      · exact absurd hcall (eventCall_ne_userDelete l uid (hext l hl))
      · cases hcall
    · rw [htr] at hl
      simp at hl
      rcases hl with rfl | rfl | hl | rfl | rfl
      · cases hcall
      · cases hcall
      · exact absurd hcall (eventCall_ne_userDelete l uid (hext l hl).1)
      · cases hcall
      · refine ⟨[⟨.userFindById uid, true⟩, ⟨.ticketingFind uid, true⟩] ++ ext, htr, ?_⟩
        intro x hx
        simp at hx
        rcases hx with rfl | rfl | hx
        · exact ⟨rfl, by simp⟩
        · exact ⟨rfl, by simp⟩
        · exact ⟨(hext x hx).2, eventCall_ne_userDelete x uid (hext x hx).1⟩
    · rw [htr] at hl
      simp at hl
      rcases hl with rfl | rfl | hl | rfl | rfl
      · cases hcall
      · cases hcall
      · exact absurd hcall (eventCall_ne_userDelete l uid (hext l hl).1)
      · cases hcall
      · refine ⟨[⟨.userFindById uid, true⟩, ⟨.ticketingFind uid, true⟩] ++ ext, htr, ?_⟩
        intro x hx
        simp at hx
        rcases hx with rfl | rfl | hx
        · exact ⟨rfl, by simp⟩
        · exact ⟨rfl, by simp⟩
        · exact ⟨(hext x hx).2, eventCall_ne_userDelete x uid (hext x hx).1⟩
  · intro h0 hu
    simp [deleteUser, h0, hu, Handled.status]

/-- C8 instantiated: deleting `alice` while the first event save is rejected, the failing
user deletion that ends a run in which everything before succeeded, and the deletion of
the unknown user 7. -/
theorem deleteUser_user_deleted_last_witness :
    ((⟨StoreCall.eventSave 100 { name := "Concert", availableTicket := .int 53 }, false⟩ : Logged)
          ∈ (deleteUser prodEnv saveFails sampleStore 1).trace
        ∧ (deleteUser prodEnv saveFails sampleStore 1).outcome.status = some 500
        ∧ (deleteUser prodEnv saveFails sampleStore 1).store.users = sampleStore.users
        ∧ (deleteUser prodEnv saveFails sampleStore 1).store.events 100
            = some { name := "Concert", availableTicket := .int 50 })
      ∧ ((⟨StoreCall.userFindByIdAndDelete 1, true⟩ : Logged)
            ∈ (deleteUser prodEnv noFaults sampleStore 1).trace
          ∧ ∃ pre, (deleteUser prodEnv noFaults sampleStore 1).trace
              = pre ++ [⟨StoreCall.ticketingDeleteMany 1, true⟩,
                        ⟨StoreCall.userFindByIdAndDelete 1, true⟩]
            ∧ ∀ x ∈ pre, x.ok = true ∧ x.call ≠ StoreCall.userFindByIdAndDelete 1)
      ∧ (noFaults 0 = none ∧ sampleStore.users 7 = none
          ∧ (deleteUser prodEnv noFaults sampleStore 7).outcome.status = some 404
          ∧ (deleteUser prodEnv noFaults sampleStore 7).store = sampleStore
          ∧ (deleteUser prodEnv noFaults sampleStore 7).trace
              = [⟨StoreCall.userFindById 7, true⟩]) := by
  have h1 := (deleteUser_user_deleted_last prodEnv saveFails sampleStore 1).1
    ⟨StoreCall.eventSave 100 { name := "Concert", availableTicket := .int 53 }, false⟩
    (by decide) rfl (by decide)
  have h2 := (deleteUser_user_deleted_last prodEnv noFaults sampleStore 1).2.1
    ⟨StoreCall.userFindByIdAndDelete 1, true⟩ (by decide) rfl
  have h3 := (deleteUser_user_deleted_last prodEnv noFaults sampleStore 7).2.2 rfl (by decide)
  exact ⟨⟨by decide, h1.1, h1.2, by decide⟩, ⟨by decide, h2⟩, rfl, by decide, h3⟩

end EventBackend
